import Mathlib

/-!
Formal model of the guestbook cache/poller subsystem of `src/Website.py`.

The embedding is shallow: the SQLite store is a list of rows kept newest-first
(`ORDER BY id DESC` order) together with the next AUTOINCREMENT id and a file
modification marker (`mtime`, modelled as a counter bumped by every write);
the in-process cache is the triple of globals `_entries_cache`, `_last_id`,
`_last_mtime`; each Python handler / poller iteration becomes a pure function,
and thread interleavings become explicit step relations.
-/

namespace Guestbook

/-- One guestbook row: columns `id, name, message, created_at` of the
`entries` table (Website.py lines 64-71). -/
structure Entry where
  id : Nat
  name : String
  message : String
  created_at : String
  deriving DecidableEq, Repr

/-- The persistent store. `rows` is kept newest-first, i.e. already in the
`ORDER BY id DESC` order every query in the source uses; `nextId` is the next
AUTOINCREMENT value; `mtime` models `DB_PATH.stat().st_mtime`, bumped by every
committed write. -/
structure Store where
  rows : List Entry
  nextId : Nat
  mtime : Nat
  deriving DecidableEq, Repr

/-- `SELECT id, name, message, created_at FROM entries ORDER BY id DESC LIMIT 100`
(Website.py line 101). -/
def selectNewest100 (st : Store) : List Entry :=
  st.rows.take 100

/-- `SELECT id, name, message, created_at FROM entries WHERE id > ? ORDER BY id DESC`
(Website.py line 131). -/
def selectAfter (st : Store) (lastId : Nat) : List Entry :=
  st.rows.filter (fun e => lastId < e.id)

/-- `INSERT INTO entries (name, message, created_at) VALUES (?, ?, ?)` followed
by `commit` (Website.py lines 194-199): assigns the AUTOINCREMENT id, bumps the
file modification marker, and returns the new store plus `cur.lastrowid`. -/
def dbInsert (st : Store) (name message created_at : String) : Store × Nat :=
  ({ rows := { id := st.nextId, name := name, message := message,
               created_at := created_at } :: st.rows,
     nextId := st.nextId + 1,
     mtime := st.mtime + 1 }, st.nextId)

/-- The in-process cache: globals `_entries_cache`, `_last_id`, `_last_mtime`
(Website.py lines 91-93). -/
structure Cache where
  entries : List Entry
  last_id : Nat
  last_mtime : Option Nat
  deriving DecidableEq, Repr

/-- Initial global state (Website.py lines 91-93): empty cache, `_last_id = 0`,
`_last_mtime = None`. -/
def initCache : Cache :=
  { entries := [], last_id := 0, last_mtime := none }

/-- `_load_initial_cache` (Website.py lines 96-113): installs the newest 100
rows, sets `_last_id` to the head row's id when any row was returned, then
records the store's mtime (`statOk = false` models the `OSError` branch that
leaves `_last_mtime = None`). -/
def loadInitialCache (st : Store) (statOk : Bool) (c : Cache) : Cache :=
  let rows := selectNewest100 st
  { entries := rows,
    last_id := match rows with
      | [] => c.last_id
      | r :: _ => r.id,
    last_mtime := if statOk then some st.mtime else none }

/-- One iteration of the `_poll_db` loop body (Website.py lines 119-142), with
its interactions with the outside world as parameters: `mk` is the result of
`DB_PATH.stat().st_mtime` (`none` = `OSError`, skip the iteration), and `q` is
the `id > ?` query, applied to the current `_last_id` (`Except.error` = any
exception, caught by the outer handler which logs and continues). The function
is total: no outcome terminates the loop. -/
def pollIter (mk : Option Nat) (q : Nat → Except Unit (List Entry)) (c : Cache) : Cache :=
  match mk with
  | none => c
  | some m =>
    match c.last_mtime with
    | none => { c with last_mtime := some m }
    | some lm =>
      if m = lm then c
      else
        match q c.last_id with
        | .error _ => c
        | .ok rows =>
          match rows with
          | [] => { c with last_mtime := some m }
          | r :: _ =>
            { entries := rows ++ c.entries,
              last_id := max c.last_id r.id,
              last_mtime := some m }

/-- The query the poller actually issues when nothing raises (Website.py
lines 130-133). -/
def pollQuery (st : Store) : Nat → Except Unit (List Entry) :=
  fun lastId => .ok (selectAfter st lastId)

/-- Python's `str.strip()`: remove leading and trailing whitespace. Written
on the character list so that it is fully executable. -/
def pyStrip (s : String) : String :=
  String.mk (((s.data.dropWhile Char.isWhitespace).reverse.dropWhile
    Char.isWhitespace).reverse)

/-- `request.form.get('name', '').strip() or 'Anonymous'` (Website.py
line 178); Python's `or` substitutes the placeholder exactly when the
stripped name is the empty (falsy) string. -/
def normalizeName (name : String) : String :=
  if pyStrip name = "" then "Anonymous" else pyStrip name

/-- Outcome of the `/submit` handler: a `flash(..., 'error')` rejection or the
success path. -/
inductive SubmitResult where
  | rejected (msg : String)
  | posted
  deriving DecidableEq, Repr

/-- Store and cache of one process, for the sequential (per-handler atomic)
view of the system. -/
structure Sys where
  store : Store
  cache : Cache
  deriving DecidableEq, Repr

/-- Process start state: empty store (`init_db` creates the empty table),
AUTOINCREMENT starting at 1, and the initial cache globals. -/
def initSys : Sys :=
  { store := { rows := [], nextId := 1, mtime := 0 }, cache := initCache }

/-- The `/submit` handler (Website.py lines 175-214) run to completion:
normalize the name, strip the message, run the three validation checks in
source order, and on success insert into the store and, when `useCache`,
prepend the same row to `_entries_cache` and advance `_last_id`
(lines 202-209). `created_at` stands for `datetime.utcnow().isoformat()`. -/
def submit (s : Sys) (useCache : Bool) (name message created_at : String) :
    Sys × SubmitResult :=
  let name' := normalizeName name
  let message' := (pyStrip message)
  if message' = "" then (s, .rejected "Message is required.")
  else if 50 < name'.length then (s, .rejected "Name must be 50 characters or fewer.")
  else if 1000 < message'.length then (s, .rejected "Message is too long (max 1000 characters).")
  else
    let ins := dbInsert s.store name' message' created_at
    let newEntry : Entry :=
      { id := ins.2, name := name', message := message', created_at := created_at }
    let c' := if useCache then
        { entries := newEntry :: s.cache.entries,
          last_id := max s.cache.last_id ins.2,
          last_mtime := s.cache.last_mtime }
      else s.cache
    ({ store := ins.1, cache := c' }, .posted)

/-- The entry list served by `index` when `USE_CACHE` holds (Website.py
lines 163-166): a copy of the whole `_entries_cache`, taken under the lock. -/
def indexCached (c : Cache) : List Entry :=
  c.entries

/-- The rows served by `index` when `USE_CACHE` is off (Website.py
lines 168-171): `SELECT name, message, created_at ... ORDER BY id DESC LIMIT 100`. -/
def indexUncached (st : Store) : List (String × String × String) :=
  (selectNewest100 st).map (fun e => (e.name, e.message, e.created_at))

/-- `os.environ.get(var, '1') == '1'` — the parse of `GUESTBOOK_ENABLE_POLLER`
and `GUESTBOOK_USE_CACHE` (Website.py lines 87-88); `none` models an absent
variable. -/
def envFlag (v : Option String) : Bool :=
  v.getD "1" == "1"

/-! ## Thread-interleaved model

The poller thread and the request-handling threads synchronize only through
`_CACHE_LOCK`, and that lock guards only the in-memory splice: the poller's
mtime read and DB query (Website.py lines 122-133) run outside the lock, as
does the store insert of `/submit` (lines 193-200). The states of this model
therefore carry, besides store and cache, the poller's in-flight fetched data
(`buf`: mtime read at line 122 and rows fetched at line 132, merge still
pending) and the rows `/submit` handlers have committed to the store but not
yet spliced into the cache (`pending`). -/

/-- Process state visible to all threads, plus the in-flight private data of
the poller (`buf`) and of submit handlers between their two critical sections
(`pending`). -/
structure PSys where
  store : Store
  cache : Cache
  buf : Option (Nat × List Entry)
  pending : List Entry
  deriving DecidableEq, Repr

/-- Process start state. -/
def initPSys : PSys :=
  { store := { rows := [], nextId := 1, mtime := 0 },
    cache := initCache, buf := none, pending := [] }

/-- Atomic steps of the interleaved execution. Each constructor is one
indivisible section of `src/Website.py`: a lock-protected splice, a single
store operation, or a single read of the mtime. Validated submissions are the
only ones that reach a mutating step, so `submitInsert` carries the checks of
lines 182-190. -/
inductive Step : PSys → PSys → Prop where
  /-- `/submit` lines 192-200: a validated submission inserts its row and
  commits; the cache splice (lines 202-209) is still pending. -/
  | submitInsert (s : PSys) (name message created_at : String)
      (hmsg : (pyStrip message) ≠ "")
      (hname : (normalizeName name).length ≤ 50)
      (hlen : (pyStrip message).length ≤ 1000) :
      Step s { s with
        store := (dbInsert s.store (normalizeName name) (pyStrip message) created_at).1,
        pending := { id := s.store.nextId, name := normalizeName name,
                     message := (pyStrip message), created_at := created_at } :: s.pending }
  /-- `/submit` lines 202-209: the handler that inserted `e` takes the lock,
  prepends `e` and advances `_last_id`. -/
  | submitCache (s : PSys) (e : Entry) (he : e ∈ s.pending) :
      Step s { s with
        cache := { entries := e :: s.cache.entries,
                   last_id := max s.cache.last_id e.id,
                   last_mtime := s.cache.last_mtime },
        pending := s.pending.erase e }
  /-- `_poll_db` lines 122-124: `stat` raises `OSError`; skip the iteration. -/
  | pollStatFail (s : PSys) :
      Step s s
  /-- `_poll_db` lines 127-128: first successful `stat`, `_last_mtime` was
  `None`; record it, no query. -/
  | pollFetchInit (s : PSys) (h : s.cache.last_mtime = none) :
      Step s { s with cache := { s.cache with last_mtime := some s.store.mtime } }
  /-- `_poll_db` line 129: mtime unchanged; do nothing. -/
  | pollFetchSame (s : PSys) (lm : Nat) (h : s.cache.last_mtime = some lm)
      (heq : s.store.mtime = lm) :
      Step s s
  /-- `_poll_db` lines 129-133: mtime changed; run the `id > _last_id` query
  (outside the lock) and hold the rows for the merge. -/
  | pollFetch (s : PSys) (lm : Nat) (h : s.cache.last_mtime = some lm)
      (hne : s.store.mtime ≠ lm) (hb : s.buf = none) :
      Step s { s with
        buf := some (s.store.mtime, selectAfter s.store s.cache.last_id) }
  /-- `_poll_db` lines 134-139 when the query returned no rows: just record
  the new mtime. -/
  | pollMergeNil (s : PSys) (m : Nat) (hb : s.buf = some (m, [])) :
      Step s { s with
        cache := { s.cache with last_mtime := some m }, buf := none }
  /-- `_poll_db` lines 134-139 when the query returned rows: take the lock,
  prepend them, advance `_last_id` to `max(_last_id, rows[0].id)`, record the
  new mtime. -/
  | pollMergeCons (s : PSys) (m : Nat) (r : Entry) (rs : List Entry)
      (hb : s.buf = some (m, r :: rs)) :
      Step s { s with
        cache := { entries := (r :: rs) ++ s.cache.entries,
                   last_id := max s.cache.last_id r.id,
                   last_mtime := some m },
        buf := none }
  /-- `_load_initial_cache` (lines 96-113), run by `_ensure_poller_started`;
  its query and lock section are one step here because no poller exists before
  it finishes. -/
  | loadInitial (s : PSys) (statOk : Bool) :
      Step s { s with cache := loadInitialCache s.store statOk s.cache }

/-- Reachability of the interleaved system from process start. -/
def ReachP (s : PSys) : Prop :=
  Relation.ReflTransGen Step initPSys s

/-! ## Startup race model

`_ensure_poller_started` (Website.py lines 147-158) reads `_poller_started`
and, if false, sets it and starts a poller thread — with no lock, so the read
(line 152) and the write (line 153) of one thread can interleave with those of
another. Two concurrent first requests are modelled; each thread's program
counter records whether it has yet to run, has observed the flag false and is
about to do the startup work, or is done. -/

/-- Program counter of one request thread in `_ensure_poller_started`. -/
inductive TPc where
  /-- has not yet executed line 152 -/
  | start
  /-- observed `_poller_started` false at line 152, lines 153-158 pending -/
  | go
  /-- finished the handler -/
  | done
  deriving DecidableEq, Repr

/-- Shared flag `_poller_started`, the number of poller threads started so
far, and the two threads' program counters. -/
structure StartState where
  flag : Bool
  pollers : Nat
  pc1 : TPc
  pc2 : TPc
  deriving DecidableEq, Repr

/-- Both request threads at line 152, flag clear, no poller running. -/
def initStart : StartState :=
  { flag := false, pollers := 0, pc1 := .start, pc2 := .start }

/-- Atomic steps of the two racing `_ensure_poller_started` calls: the flag
test of line 152 and the flag write plus thread start of lines 153-158 are
distinct bytecode sequences, so they are distinct steps. -/
inductive TStep : StartState → StartState → Prop where
  | check1 (s : StartState) (h : s.pc1 = .start) :
      TStep s { s with pc1 := if s.flag then .done else .go }
  | run1 (s : StartState) (h : s.pc1 = .go) :
      TStep s { s with flag := true, pollers := s.pollers + 1, pc1 := .done }
  | check2 (s : StartState) (h : s.pc2 = .start) :
      TStep s { s with pc2 := if s.flag then .done else .go }
  | run2 (s : StartState) (h : s.pc2 = .go) :
      TStep s { s with flag := true, pollers := s.pollers + 1, pc2 := .done }

/-- Reachability of the startup race model. -/
def ReachT (s : StartState) : Prop :=
  Relation.ReflTransGen TStep initStart s

/-! ## Derived notions used by the statements -/

/-- A list of entries is strictly descending by id. -/
@[reducible] def entriesDesc (l : List Entry) : Prop :=
  List.Pairwise (fun a b => b.id < a.id) l

/-- The spec invariant `last_seen_id ≥ id of every entry in entries`. -/
def cacheIdBound (c : Cache) : Prop :=
  ∀ e ∈ c.entries, e.id ≤ c.last_id

/-- Well-formedness the SQLite table guarantees: rows come back strictly
descending by primary key, and every id is below the next AUTOINCREMENT
value. -/
def storeWF (st : Store) : Prop :=
  entriesDesc st.rows ∧ ∀ e ∈ st.rows, e.id < st.nextId

/-- Invariant of the interleaved system: the store is well formed, the cache
satisfies the id bound, and rows the poller has fetched but not yet merged are
strictly descending (they are a result of an `ORDER BY id DESC` query). -/
def psysWF (s : PSys) : Prop :=
  storeWF s.store ∧ cacheIdBound s.cache ∧
  ∀ m rows, s.buf = some (m, rows) → entriesDesc rows

/-- `n` sequential valid submissions, each run to completion with the cache
enabled. -/
def submitN : Nat → Sys → Sys
  | 0, s => s
  | n + 1, s => submitN n (submit s true "A" "hi" "2024-01-01T00:00:00").1

/-- The row inserted by the racing submission in the duplicate-entry trace. -/
def raceEntry : Entry :=
  { id := 1, name := "Alice", message := "hi", created_at := "T" }

/-- End state of the duplicate-entry interleaving: the poller queried the
store after the submit handler's insert but spliced its rows into the cache
after the handler's own cache update, so the row appears twice. -/
def raceState : PSys :=
  { store := { rows := [raceEntry], nextId := 2, mtime := 1 },
    cache := { entries := [raceEntry, raceEntry], last_id := 1, last_mtime := some 1 },
    buf := none, pending := [] }

/-! ## Helper lemmas -/

/-- Closed form of a successful `/submit`: under the three validation checks
the handler inserts the row with id `nextId` and, when the cache is enabled,
prepends the same row and advances `_last_id`. -/
theorem submit_success_eq (s : Sys) (u : Bool) (name message t : String)
    (hm : (pyStrip message) ≠ "") (hn : (normalizeName name).length ≤ 50)
    (hl : (pyStrip message).length ≤ 1000) :
    submit s u name message t =
      ({ store := { rows := { id := s.store.nextId, name := normalizeName name,
                              message := (pyStrip message), created_at := t } :: s.store.rows,
                    nextId := s.store.nextId + 1,
                    mtime := s.store.mtime + 1 },
         cache := if u then
             { entries := { id := s.store.nextId, name := normalizeName name,
                            message := (pyStrip message), created_at := t } :: s.cache.entries,
               last_id := max s.cache.last_id s.store.nextId,
               last_mtime := s.cache.last_mtime }
           else s.cache }, .posted) := by
  have h2 : ¬ 50 < (normalizeName name).length := Nat.not_lt.mpr hn
  have h3 : ¬ 1000 < (pyStrip message).length := Nat.not_lt.mpr hl
  simp [submit, hm, h2, h3, dbInsert]

/-! ## Claims -/

/-- C10: a flag controlled by `GUESTBOOK_ENABLE_POLLER` / `GUESTBOOK_USE_CACHE`
is enabled iff the variable is absent (default `'1'`) or set to exactly `'1'`;
any other value, including `'true'` and `'yes'`, disables it. -/
theorem envFlag_exactly_one :
    (∀ v : Option String, envFlag v = true ↔ (v = none ∨ v = some "1")) ∧
    envFlag none = true ∧ envFlag (some "1") = true ∧
    envFlag (some "true") = false ∧ envFlag (some "yes") = false ∧
    envFlag (some "0") = false := by
  refine ⟨?_, by decide, by decide, by decide, by decide, by decide⟩
  intro v
  cases v with
  | none => simp [envFlag]
  | some w => simp [envFlag]

/-- C8: a submission whose message strips to empty, or whose normalized name
exceeds 50 characters, or whose stripped message exceeds 1000 characters, is
rejected with a user-visible error (`flash(..., 'error')`, never the success
path), and neither the store nor the cache changes. -/
theorem submit_invalid_rejected (s : Sys) (u : Bool) (name message t : String)
    (h : (pyStrip message) = "" ∨ 50 < (normalizeName name).length ∨
      1000 < (pyStrip message).length) :
    (submit s u name message t).1 = s ∧
    (submit s u name message t).2 ≠ .posted ∧
    (submit s u name message t).1.store.rows.length = s.store.rows.length ∧
    (submit s u name message t).1.cache = s.cache := by
  have : (submit s u name message t).1 = s ∧ (submit s u name message t).2 ≠ .posted := by
    by_cases hm : (pyStrip message) = ""
    · simp [submit, hm]
    · rcases h with h | h | h
      · exact absurd h hm
      · simp [submit, hm, h]
      · by_cases hn : 50 < (normalizeName name).length
        · simp [submit, hm, hn]
        · simp [submit, hm, hn, h]
  exact ⟨this.1, this.2, by rw [this.1], by rw [this.1]⟩

/-- Witness for C8: submitting an empty message against the fresh process
state is rejected and changes nothing. -/
theorem submit_invalid_rejected_witness :
    (submit initSys true "Bob" "" "T").1 = initSys ∧
    (submit initSys true "Bob" "" "T").2 ≠ .posted ∧
    (submit initSys true "Bob" "" "T").1.store.rows.length = initSys.store.rows.length ∧
    (submit initSys true "Bob" "" "T").1.cache = initSys.cache :=
  submit_invalid_rejected initSys true "Bob" "" "T" (Or.inl (by decide))

/-- C9: a submission with a blank (empty or whitespace-only) name and a valid
message is stored with the placeholder name `"Anonymous"`. -/
theorem submit_blank_name_anonymous (s : Sys) (u : Bool) (name message t : String)
    (hn : pyStrip name = "") (hm : (pyStrip message) ≠ "") (hl : (pyStrip message).length ≤ 1000) :
    (submit s u name message t).2 = .posted ∧
    (submit s u name message t).1.store.rows.head? =
      some { id := s.store.nextId, name := "Anonymous",
             message := (pyStrip message), created_at := t } := by
  have hname : normalizeName name = "Anonymous" := by simp [normalizeName, hn]
  rw [submit_success_eq s u name message t hm (by rw [hname]; decide) hl]
  simp [hname]

/-- Witness for C9: the spec's own example, `{name: " ", message: "yo"}`,
stores the row under the name `"Anonymous"`. -/
theorem submit_blank_name_anonymous_witness :
    (submit initSys true " " "yo" "T").2 = .posted ∧
    (submit initSys true " " "yo" "T").1.store.rows.head? =
      some { id := initSys.store.nextId, name := "Anonymous",
             message := pyStrip "yo", created_at := "T" } :=
  submit_blank_name_anonymous initSys true " " "yo" "T" (by decide) (by decide) (by decide)

/-- C7: a valid submission, run to completion with the cache enabled, leaves
the newly stored row — with the store-assigned id and the handler's timestamp
— at the front of the cache, and at the front of the store; the immediately
following cached read therefore serves it without waiting for a poll cycle. -/
theorem submit_read_your_write (s : Sys) (name message t : String)
    (hm : pyStrip message ≠ "") (hn : (normalizeName name).length ≤ 50)
    (hl : (pyStrip message).length ≤ 1000) :
    (submit s true name message t).2 = .posted ∧
    indexCached (submit s true name message t).1.cache =
      { id := s.store.nextId, name := normalizeName name,
        message := pyStrip message, created_at := t } :: indexCached s.cache ∧
    (submit s true name message t).1.store.rows.head? =
      some { id := s.store.nextId, name := normalizeName name,
             message := pyStrip message, created_at := t } := by
  rw [submit_success_eq s true name message t hm hn hl]
  simp [indexCached]

/-- Witness for C7: submitting `{name: "Alice", message: "hi"}` against the
fresh process state puts the row with id 1 at the front of the cached read. -/
theorem submit_read_your_write_witness :
    (submit initSys true "Alice" "hi" "T").2 = .posted ∧
    indexCached (submit initSys true "Alice" "hi" "T").1.cache =
      { id := initSys.store.nextId, name := normalizeName "Alice",
        message := pyStrip "hi", created_at := "T" } :: indexCached initSys.cache ∧
    (submit initSys true "Alice" "hi" "T").1.store.rows.head? =
      some { id := initSys.store.nextId, name := normalizeName "Alice",
             message := pyStrip "hi", created_at := "T" } :=
  submit_read_your_write initSys "Alice" "hi" "T" (by decide) (by decide) (by decide)

/-- Each of the `n` fixed valid submissions grows the cache by one entry. -/
theorem submitN_cache_length (n : Nat) (s : Sys) :
    (submitN n s).cache.entries.length = n + s.cache.entries.length := by
  induction n generalizing s with
  | zero => simp [submitN]
  | succ k ih =>
    simp only [submitN]
    rw [submit_success_eq s true "A" "hi" "2024-01-01T00:00:00"
      (by decide) (by decide) (by decide)]
    rw [ih]
    simp
    omega

/-- C2 counterexample: the cached read path of `index` applies no cap, so a
cache reached by 101 valid submissions is served whole — 101 entries, not at
most 100. -/
theorem indexCached_not_capped :
    ¬ ∀ c : Cache, (indexCached c).length ≤ 100 := by
  intro h
  have h101 := h (submitN 101 initSys).cache
  simp only [indexCached] at h101
  rw [submitN_cache_length] at h101
  simp [initSys, initCache] at h101

/-- C2 amended: when caching is enabled a read serves the entire cache
snapshot, with no 100-entry cap (reachable caches can exceed it); when caching
is disabled it queries the store directly for the newest 100 entries. -/
theorem index_read_paths :
    (∀ c : Cache, indexCached c = c.entries) ∧
    100 < (indexCached (submitN 101 initSys).cache).length ∧
    (∀ st : Store, indexUncached st =
      (selectNewest100 st).map (fun e => (e.name, e.message, e.created_at)) ∧
      (indexUncached st).length ≤ 100) := by
  refine ⟨fun c => rfl, ?_, fun st => ⟨rfl, ?_⟩⟩
  · simp only [indexCached]
    rw [submitN_cache_length]
    simp [initSys, initCache]
  · simp only [indexUncached, selectNewest100, List.length_map, List.length_take]
    omega

/-- C4: a refresher iteration whose mtime read raises `OSError` leaves the
cache untouched (also across `n` consecutive such cycles), and an iteration
whose store query raises is caught by the outer handler and likewise leaves
the cache untouched; `pollIter` is total, so no failure outcome terminates
the loop — it always proceeds to the next sleep/retry cycle. -/
theorem pollIter_failure_no_change (q : Nat → Except Unit (List Entry))
    (c : Cache) (m lm n : Nat)
    (hlm : c.last_mtime = some lm) (hne : m ≠ lm)
    (hq : q c.last_id = .error ()) :
    pollIter none q c = c ∧
    (pollIter none q)^[n] c = c ∧
    pollIter (some m) q c = c := by
  have h0 : pollIter none q c = c := rfl
  refine ⟨h0, Function.iterate_fixed h0 n, ?_⟩
  simp [pollIter, hlm, hne, hq]

/-- Witness for C4: a cache with an observed marker survives three failed
mtime reads and one raising query unchanged. -/
theorem pollIter_failure_no_change_witness :
    pollIter none (fun _ => Except.error ())
        { entries := [], last_id := 0, last_mtime := some 5 } =
      { entries := [], last_id := 0, last_mtime := some 5 } ∧
    (pollIter none (fun _ => Except.error ()))^[3]
        { entries := [], last_id := 0, last_mtime := some 5 } =
      { entries := [], last_id := 0, last_mtime := some 5 } ∧
    pollIter (some 7) (fun _ => Except.error ())
        { entries := [], last_id := 0, last_mtime := some 5 } =
      { entries := [], last_id := 0, last_mtime := some 5 } :=
  pollIter_failure_no_change (fun _ => Except.error ())
    { entries := [], last_id := 0, last_mtime := some 5 } 7 5 3 rfl (by decide) rfl

/-- C5: a refresher iteration with a readable marker. If the mtime equals the
last observed value, the cache is unchanged and no query is consulted (the
result is the same even for a query that would raise). If the mtime differs,
the iteration runs exactly the `id > _last_id` descending query: when it
returns no rows only the observed marker advances; when it returns rows they
are prepended in order, `_last_id` advances to the head id — the maximum of
the returned ids, all of which exceed the old `_last_id` — and the marker
advances as well. -/
theorem pollIter_marker_cases (st : Store) (c : Cache) (m lm : Nat)
    (hlm : c.last_mtime = some lm) (hne : m ≠ lm) (hst : entriesDesc st.rows) :
    pollIter (some lm) (pollQuery st) c = c ∧
    pollIter (some lm) (fun _ => Except.error ()) c = c ∧
    (match selectAfter st c.last_id with
      | [] => pollIter (some m) (pollQuery st) c = { c with last_mtime := some m }
      | r :: rs =>
        pollIter (some m) (pollQuery st) c =
          { entries := (r :: rs) ++ c.entries, last_id := r.id,
            last_mtime := some m } ∧
        (r :: rs).all
          (fun e => decide (e.id ≤ r.id) && decide (c.last_id < e.id)) = true) := by
  have hsame : ∀ q, pollIter (some lm) q c = c := by
    intro q
    simp [pollIter, hlm]
  refine ⟨hsame _, hsame _, ?_⟩
  cases hrows : selectAfter st c.last_id with
  | nil => simp [pollIter, pollQuery, hlm, hne, hrows]
  | cons r rs =>
    have hdesc : entriesDesc (r :: rs) := hrows ▸ List.Pairwise.filter _ hst
    have hmem : ∀ e ∈ r :: rs, c.last_id < e.id := by
      intro e he
      have h1 : e ∈ selectAfter st c.last_id := hrows ▸ he
      have h2 := List.mem_filter.mp h1
      simpa using h2.2
    have hmax : max c.last_id r.id = r.id :=
      max_eq_right (le_of_lt (hmem r (List.mem_cons_self r rs)))
    refine ⟨?_, ?_⟩
    · simp [pollIter, pollQuery, hlm, hne, hrows, hmax]
    · rw [List.all_eq_true]
      intro e he
      simp only [Bool.and_eq_true, decide_eq_true_eq]
      refine ⟨?_, hmem e he⟩
      rcases List.mem_cons.mp he with rfl | he'
      · exact le_refl _
      · exact le_of_lt ((List.pairwise_cons.mp hdesc).1 e he')

/-- Witness for C5: a two-row store whose mtime moved from 1 to 2 against a
cache holding row 1: the iteration pulls exactly row 2 and prepends it. -/
theorem pollIter_marker_cases_witness :
    pollIter (some 1)
        (pollQuery { rows := [{ id := 2, name := "B", message := "m2", created_at := "T2" },
                              { id := 1, name := "A", message := "m1", created_at := "T1" }],
                     nextId := 3, mtime := 2 })
        { entries := [{ id := 1, name := "A", message := "m1", created_at := "T1" }],
          last_id := 1, last_mtime := some 1 } =
      { entries := [{ id := 1, name := "A", message := "m1", created_at := "T1" }],
        last_id := 1, last_mtime := some 1 } ∧
    pollIter (some 1) (fun _ => Except.error ())
        { entries := [{ id := 1, name := "A", message := "m1", created_at := "T1" }],
          last_id := 1, last_mtime := some 1 } =
      { entries := [{ id := 1, name := "A", message := "m1", created_at := "T1" }],
        last_id := 1, last_mtime := some 1 } ∧
    (match selectAfter { rows := [{ id := 2, name := "B", message := "m2", created_at := "T2" },
                                  { id := 1, name := "A", message := "m1", created_at := "T1" }],
                         nextId := 3, mtime := 2 }
        (Cache.last_id { entries := [{ id := 1, name := "A", message := "m1", created_at := "T1" }],
                         last_id := 1, last_mtime := some 1 }) with
      | [] => pollIter (some 2)
            (pollQuery { rows := [{ id := 2, name := "B", message := "m2", created_at := "T2" },
                                  { id := 1, name := "A", message := "m1", created_at := "T1" }],
                         nextId := 3, mtime := 2 })
            { entries := [{ id := 1, name := "A", message := "m1", created_at := "T1" }],
              last_id := 1, last_mtime := some 1 } =
          { entries := [{ id := 1, name := "A", message := "m1", created_at := "T1" }],
            last_id := 1, last_mtime := some 2 }
      | r :: rs =>
        pollIter (some 2)
            (pollQuery { rows := [{ id := 2, name := "B", message := "m2", created_at := "T2" },
                                  { id := 1, name := "A", message := "m1", created_at := "T1" }],
                         nextId := 3, mtime := 2 })
            { entries := [{ id := 1, name := "A", message := "m1", created_at := "T1" }],
              last_id := 1, last_mtime := some 1 } =
          { entries := (r :: rs) ++ [{ id := 1, name := "A", message := "m1", created_at := "T1" }],
            last_id := r.id, last_mtime := some 2 } ∧
        (r :: rs).all
          (fun e => decide (e.id ≤ r.id) && decide (1 < e.id)) = true) :=
  pollIter_marker_cases
    { rows := [{ id := 2, name := "B", message := "m2", created_at := "T2" },
               { id := 1, name := "A", message := "m1", created_at := "T1" }],
      nextId := 3, mtime := 2 }
    { entries := [{ id := 1, name := "A", message := "m1", created_at := "T1" }],
      last_id := 1, last_mtime := some 1 }
    2 1 rfl (by decide) (by decide)

/-- Every interleaved step preserves the system invariant: store rows stay
strictly descending with ids below the AUTOINCREMENT counter, fetched-but-
unmerged poller rows stay strictly descending, and every cache entry id stays
at most `_last_id`. -/
theorem step_psysWF {s s' : PSys} (hstep : Step s s') (h : psysWF s) : psysWF s' := by
  obtain ⟨⟨hdesc, hlt⟩, hbound, hbuf⟩ := h
  cases hstep with
  | submitInsert name message created_at hmsg hname hlen =>
    refine ⟨⟨?_, ?_⟩, hbound, hbuf⟩
    · simp only [dbInsert]
      exact List.pairwise_cons.mpr ⟨fun b hb => hlt b hb, hdesc⟩
    · simp only [dbInsert]
      intro e he
      rcases List.mem_cons.mp he with rfl | he'
      · exact Nat.lt_succ_self _
      · exact Nat.lt_succ_of_lt (hlt e he')
  | submitCache e he =>
    refine ⟨⟨hdesc, hlt⟩, ?_, hbuf⟩
    intro x hx
    rcases List.mem_cons.mp hx with rfl | hx'
    · exact le_max_right _ _
    · exact le_trans (hbound x hx') (le_max_left _ _)
  | pollStatFail =>
    exact ⟨⟨hdesc, hlt⟩, hbound, hbuf⟩
  | pollFetchInit hmt =>
    exact ⟨⟨hdesc, hlt⟩, hbound, hbuf⟩
  | pollFetchSame lm hmt heq =>
    exact ⟨⟨hdesc, hlt⟩, hbound, hbuf⟩
  | pollFetch lm hmt hne hb =>
    refine ⟨⟨hdesc, hlt⟩, hbound, ?_⟩
    intro m rows hmr
    injection hmr with h2
    injection h2 with hm hr
    subst hr
    exact List.Pairwise.filter _ hdesc
  | pollMergeNil m hb =>
    exact ⟨⟨hdesc, hlt⟩, hbound, fun _ _ h2 => Option.noConfusion h2⟩
  | pollMergeCons m r rs hb =>
    have hdrs : entriesDesc (r :: rs) := hbuf m (r :: rs) hb
    refine ⟨⟨hdesc, hlt⟩, ?_, fun _ _ h2 => Option.noConfusion h2⟩
    intro x hx
    rcases List.mem_append.mp hx with hx' | hx'
    · rcases List.mem_cons.mp hx' with rfl | hx2
      · exact le_max_right _ _
      · exact le_trans (le_of_lt ((List.pairwise_cons.mp hdrs).1 x hx2))
          (le_max_right _ _)
    · exact le_trans (hbound x hx') (le_max_left _ _)
  | loadInitial statOk =>
    refine ⟨⟨hdesc, hlt⟩, ?_, hbuf⟩
    intro x hx
    simp only [loadInitialCache, selectNewest100] at hx ⊢
    have htake : entriesDesc (s.store.rows.take 100) :=
      List.Pairwise.sublist (List.take_sublist 100 s.store.rows) hdesc
    rcases h100 : s.store.rows.take 100 with _ | ⟨r, rest⟩
    · rw [h100] at hx
      cases hx
    · rw [h100] at hx htake
      show x.id ≤ r.id
      rcases List.mem_cons.mp hx with rfl | hx'
      · exact le_refl _
      · exact le_of_lt ((List.pairwise_cons.mp htake).1 x hx')

/-- Every state reachable by the interleaved system satisfies the invariant. -/
theorem reachP_psysWF (s : PSys) (h : ReachP s) : psysWF s := by
  induction h with
  | refl =>
    refine ⟨⟨List.Pairwise.nil, ?_⟩, ?_, ?_⟩
    · intro e he
      simp [initPSys] at he
    · intro e he
      simp [initPSys, initCache] at he
    · intro m rows h2
      exact Option.noConfusion h2
  | tail _ hstep ih => exact step_psysWF hstep ih

/-- C6: along every interleaved execution of the mutating operations —
initial load, poller fetch and merge, and the immediate insert of `/submit` —
`_last_id` stays greater than or equal to the id of every entry held in the
cache. -/
theorem reach_cache_id_bound (s : PSys) (h : ReachP s) : cacheIdBound s.cache :=
  (reachP_psysWF s h).2.1

/-- Witness for C6: after the initial load and one completed submission the
single cached entry has id 1 and `_last_id` is 1. -/
theorem reach_cache_id_bound_witness :
    cacheIdBound { entries := [{ id := 1, name := "Alice", message := "hi",
                                 created_at := "T" }],
                   last_id := 1, last_mtime := some 0 } :=
  reach_cache_id_bound
    { store := { rows := [{ id := 1, name := "Alice", message := "hi",
                            created_at := "T" }],
                 nextId := 2, mtime := 1 },
      cache := { entries := [{ id := 1, name := "Alice", message := "hi",
                               created_at := "T" }],
                 last_id := 1, last_mtime := some 0 },
      buf := none, pending := [] }
    (by
      show Relation.ReflTransGen Step initPSys _
      refine Relation.ReflTransGen.head (Step.loadInitial initPSys true) ?_
      refine Relation.ReflTransGen.head
        (Step.submitInsert _ "Alice" "hi" "T" (by decide) (by decide) (by decide)) ?_
      refine Relation.ReflTransGen.head
        (Step.submitCache _ { id := 1, name := "Alice", message := "hi",
                              created_at := "T" } (by decide)) ?_
      exact Relation.ReflTransGen.refl)

/-- The duplicate-entry interleaving is reachable: submit inserts row 1 and
commits; the poller sees the new mtime and fetches row 1 (its query ran with
the not-yet-advanced `_last_id = 0`); the submit handler then takes the lock
and prepends row 1; finally the poller merges its stale fetch, prepending
row 1 a second time. -/
theorem raceState_reachable : ReachP raceState := by
  show Relation.ReflTransGen Step initPSys raceState
  refine Relation.ReflTransGen.head (Step.loadInitial initPSys true) ?_
  refine Relation.ReflTransGen.head
    (Step.submitInsert _ "Alice" "hi" "T" (by decide) (by decide) (by decide)) ?_
  refine Relation.ReflTransGen.head (Step.pollFetch _ 0 rfl (by decide) rfl) ?_
  refine Relation.ReflTransGen.head (Step.submitCache _ raceEntry (by decide)) ?_
  refine Relation.ReflTransGen.head (Step.pollMergeCons _ 1 raceEntry [] rfl) ?_
  exact Relation.ReflTransGen.refl

/-- C1 (code bug): a reachable interleaving leaves the same row in the cache
twice, so the entry list served by the cached read has a duplicate id and is
not strictly descending — the poller's query and its merge are separate
critical sections, and a submit handler's own cache update can land between
them. -/
theorem snapshot_duplicate_ids :
    ReachP raceState ∧
    ¬ (List.map Entry.id (indexCached raceState.cache)).Nodup ∧
    ¬ entriesDesc (indexCached raceState.cache) :=
  ⟨raceState_reachable, by decide, by decide⟩

/-- The double-start interleaving of `_ensure_poller_started`: both request
threads evaluate `not _poller_started` (line 152) before either executes the
assignment (line 153), so both run the startup block and two poller threads
are started. -/
theorem doubleStart_reachable :
    ReachT { flag := true, pollers := 2, pc1 := .done, pc2 := .done } := by
  show Relation.ReflTransGen TStep initStart _
  refine Relation.ReflTransGen.head (TStep.check1 initStart rfl) ?_
  refine Relation.ReflTransGen.head (TStep.check2 _ rfl) ?_
  refine Relation.ReflTransGen.head (TStep.run1 _ rfl) ?_
  refine Relation.ReflTransGen.head (TStep.run2 _ rfl) ?_
  exact Relation.ReflTransGen.refl

/-- C3 (code bug): the one-shot startup flag is checked and set without any
lock, so an interleaving of two concurrent first requests starts two poller
threads; "exactly one refresher task per process" does not hold of every
interleaving. -/
theorem ensure_poller_double_start :
    ReachT { flag := true, pollers := 2, pc1 := .done, pc2 := .done } ∧
    ¬ ∀ s : StartState, ReachT s → s.pollers ≤ 1 :=
  ⟨doubleStart_reachable,
   fun h => absurd (h _ doubleStart_reachable) (by decide)⟩

end Guestbook
